import Mathlib

/-!
Verification of the Commotion interview bot (`bot.py`): a conversation-flow
orchestration program built on pipecat flows.  The data model (node configs,
function schemas, flow state), the four function handlers, the five node
creation functions and the startup credential validation of `run_bot` are
embedded as executable Lean definitions, and the behavioural claims about
them are proved below the definitions.

Numbers are modelled as rationals (`ℚ`): every salary literal appearing in
the program and in the claims is exactly representable, and the single
comparison `salary > 50` agrees with the source semantics on such inputs.
-/

/-- Characters stripped by `str.strip()` (the ASCII whitespace set). -/
def isPySpace (c : Char) : Bool :=
  c = ' ' || c = '\t' || c = '\n' || c = '\r' || c = '\x0b' || c = '\x0c'

/-- Model of Python `str.strip()`: remove leading and trailing whitespace. -/
def pyStrip (s : String) : String :=
  String.mk ((s.data.dropWhile isPySpace).rdropWhile isPySpace)

/-- Values stored in flow state and carried in function-call arguments:
the program only ever handles strings and numbers. -/
inductive Value where
  | str (s : String)
  | num (q : ℚ)
deriving DecidableEq

/-- Model of Python `str(v)` restricted to the value universe above. -/
def pyStr : Value → String
  | .str s => s
  | .num q => toString q

/-- Model of Python `float(v)`: numeric payloads coerce, the handlers are
never reached with other payloads once arguments validated against the
schema (type "number"). -/
def pyFloat : Value → Option ℚ
  | .num q => some q
  | .str _ => none

/-- Argument payload of a function call: a string-keyed dictionary. -/
abbrev FlowArgs := List (String × Value)

/-- Per-session mutable key/value store (`flow_manager.state`). -/
abbrev FlowState := List (String × Value)

/-- Dictionary lookup for string-keyed dictionaries (`FlowArgs`,
`FlowState`, declared parameter properties). -/
def dictGet {β : Type} : List (String × β) → String → Option β
  | [], _ => none
  | (k2, v) :: rest, k => if k2 = k then some v else dictGet rest k

/-- Dictionary update, `d[k] = v`: overwrite the key in place or append. -/
def dictSet : List (String × Value) → String → Value → List (String × Value)
  | [], k, v => [(k, v)]
  | (k2, v2) :: rest, k, v =>
      if k2 = k then (k, v) :: rest else (k2, v2) :: dictSet rest k v

/-- One chat message (`role`/`content` dictionary in the source). -/
structure Message where
  role : String
  content : String
deriving DecidableEq

/-- One post-action entry, e.g. `\x7b"type": "end_conversation"\x7d`. -/
structure PostAction where
  type : String
deriving DecidableEq

/-- Declared JSON-schema of one function parameter. -/
structure PropSchema where
  type : String
  description : String
  minimum : Option ℚ := none
  maximum : Option ℚ := none
deriving DecidableEq

/-- Names of the four module-level handler functions.  A schema refers to
its handler by this tag; `runHandler` dispatches the tag to the Lean
function that embeds the Python handler. -/
inductive HandlerRef where
  | collect_name
  | collect_salary
  | collect_motivation
  | end_interview
deriving DecidableEq

/-- A `FlowsFunctionSchema`: a callable capability exposed to the model. -/
structure FunctionSchema where
  name : String
  handler : HandlerRef
  description : String
  properties : List (String × PropSchema)
  required : List String
deriving DecidableEq

/-- A `NodeConfig`: one conversational state. -/
structure NodeConfig where
  name : String
  role_messages : List Message := []
  task_messages : List Message
  functions : List FunctionSchema
  respond_immediately : Bool := false
  post_actions : List PostAction := []
deriving DecidableEq

/-- Typed results returned by the handlers (`NameResult`, `SalaryResult`,
`MotivationResult` in the source). -/
inductive FlowResult where
  | NameResult (name : String) (status : String)
  | SalaryResult (salary : ℚ) (status : String) (too_high : Bool)
  | MotivationResult (motivation : String) (status : String)
deriving DecidableEq

/-- What a handler invocation produces: an optional typed result, the
updated flow state, and an optional next node (`None` = no transition). -/
abbrev HandlerOutcome := Option FlowResult × FlowState × Option NodeConfig

/-- Node creator `create_initial_node`. -/
def create_initial_node : NodeConfig :=
  let collect_name_func : FunctionSchema :=
    { name := "collect_name"
      handler := .collect_name
      description := "Save the candidate\x27s full name to state and move to salary discussion."
      properties := [("name",
        { type := "string"
          description := "The candidate\x27s full name" })]
      required := ["name"] }
  { name := "initial"
    role_messages := [
      { role := "system"
        content := "You\x27re an HR interviewer at Commotion, a tech company. Speak naturally like you\x27re having a real conversation—warm but professional. Keep your responses short (1-2 sentences max). Never use emojis, special characters, or markdown since this is voice. Always call the available function once you have the information needed." }]
    task_messages := [
      { role := "user"
        content := "[System] : Start with a friendly greeting. Say you\x27re from Commotion\x27s HR team and you\x27ll be conducting a quick interview today. Ask for their full name. Once they tell you their name, immediately call collect_name with it." }]
    functions := [collect_name_func] }

/-- Node creator `create_salary_node`. -/
def create_salary_node : NodeConfig :=
  let collect_salary_func : FunctionSchema :=
    { name := "collect_salary"
      handler := .collect_salary
      description := "Save salary expectation in LPA. If over 50 LPA, route to rejection; otherwise continue to motivation question."
      properties := [("salary",
        { type := "number"
          description := "Salary expectation in LPA (Lakhs Per Annum)"
          minimum := some 1
          maximum := some 200 })]
      required := ["salary"] }
  { name := "salary_collection"
    task_messages := [
      { role := "user"
        content := "[System] : Thank them briefly for sharing their name. Then ask what salary they\x27re expecting in LPA. Make it clear you need a number in Lakhs Per Annum. Once they give you a number, call collect_salary immediately." }]
    functions := [collect_salary_func]
    respond_immediately := true }

/-- Node creator `create_motivation_node`. -/
def create_motivation_node : NodeConfig :=
  let collect_motivation_func : FunctionSchema :=
    { name := "collect_motivation"
      handler := .collect_motivation
      description := "Save the candidate\x27s motivation for joining Commotion and proceed to positive resolution."
      properties := [("motivation",
        { type := "string"
          description := "The candidate\x27s motivation for joining Commotion" })]
      required := ["motivation"] }
  { name := "motivation_collection"
    task_messages := [
      { role := "user"
        content := "[System] : Acknowledge their salary expectation briefly. Then ask why they specifically want to join Commotion—what draws them to the company? Listen to their full answer, then call collect_motivation with what they said." }]
    functions := [collect_motivation_func]
    respond_immediately := true }

/-- Node creator `create_resolution_node`. -/
def create_resolution_node : NodeConfig :=
  let end_interview_func : FunctionSchema :=
    { name := "end_interview"
      handler := .end_interview
      description := "Complete the interview process."
      properties := []
      required := [] }
  { name := "resolution"
    task_messages := [
      { role := "user"
        content := "[System] : Thank them for taking the time to interview. Say something positive about their motivation or background. Let them know the HR team will review their profile and reach out within 2-3 business days with next steps. Then call end_interview." }]
    functions := [end_interview_func]
    respond_immediately := true
    post_actions := [{ type := "end_conversation" }] }

/-- Node creator `create_rejection_node`. -/
def create_rejection_node : NodeConfig :=
  let end_interview_func : FunctionSchema :=
    { name := "end_interview"
      handler := .end_interview
      description := "Complete the interview process."
      properties := []
      required := [] }
  { name := "rejection"
    task_messages := [
      { role := "user"
        content := "[System] : Thank them for their interest in Commotion. Gently explain that their salary expectation is higher than what the role currently offers. Keep it respectful—mention you appreciate their time and wish them success in finding the right opportunity. Then call end_interview." }]
    functions := [end_interview_func]
    respond_immediately := true
    post_actions := [{ type := "end_conversation" }] }

/-- Handler `collect_name`: strip and store the name, return a `NameResult`
and transition to the salary node.  A missing argument is a `KeyError`. -/
def collect_name (args : FlowArgs) (state : FlowState) :
    Except String HandlerOutcome :=
  match dictGet args "name" with
  | none => .error "KeyError: name"
  | some v =>
      let name := pyStrip (pyStr v)
      let state := dictSet state "name" (.str name)
      .ok (some (.NameResult name "success"), state, some create_salary_node)

/-- Handler `collect_salary`: store the salary, compute `too_high` and
branch to the rejection node (salary over 50) or the motivation node. -/
def collect_salary (args : FlowArgs) (state : FlowState) :
    Except String HandlerOutcome :=
  match dictGet args "salary" with
  | none => .error "KeyError: salary"
  | some v =>
      match pyFloat v with
      | none => .error "ValueError: could not convert to float"
      | some salary =>
          let state := dictSet state "salary_expectation" (.num salary)
          let too_high : Bool := decide (salary > 50)
          let result : FlowResult := .SalaryResult salary "success" too_high
          if too_high then
            .ok (some result, state, some create_rejection_node)
          else
            .ok (some result, state, some create_motivation_node)

/-- Handler `collect_motivation`: strip and store the motivation, return a
`MotivationResult` and transition to the resolution node. -/
def collect_motivation (args : FlowArgs) (state : FlowState) :
    Except String HandlerOutcome :=
  match dictGet args "motivation" with
  | none => .error "KeyError: motivation"
  | some v =>
      let motivation := pyStrip (pyStr v)
      let state := dictSet state "motivation" (.str motivation)
      .ok (some (.MotivationResult motivation "success"), state, some create_resolution_node)

/-- Handler `end_interview`: no state write, no result, no transition (the
post-action of the hosting node ends the conversation). -/
def end_interview (_args : FlowArgs) (state : FlowState) :
    Except String HandlerOutcome :=
  .ok (none, state, none)

/-- Dispatch a handler tag to the handler it names. -/
def runHandler : HandlerRef → FlowArgs → FlowState → Except String HandlerOutcome
  | .collect_name => collect_name
  | .collect_salary => collect_salary
  | .collect_motivation => collect_motivation
  | .end_interview => end_interview

/-- All node configurations the program ever activates. -/
def programNodes : List NodeConfig :=
  [create_initial_node, create_salary_node, create_motivation_node,
   create_resolution_node, create_rejection_node]

/-- Does a value satisfy a declared parameter schema: the declared JSON
type, and the numeric bounds when declared? -/
def satisfiesProp (v : Value) (p : PropSchema) : Bool :=
  (match v, p.type with
   | .str _, "string" => true
   | .num _, "number" => true
   | _, _ => false)
  && (match p.minimum, v with
      | some m, .num q => decide (m ≤ q)
      | some _, .str _ => false
      | none, _ => true)
  && (match p.maximum, v with
      | some m, .num q => decide (q ≤ m)
      | some _, .str _ => false
      | none, _ => true)

/-- Validation of an argument payload against a schema: every required
parameter is present and satisfies its declared property schema. -/
def FunctionSchema.validates (f : FunctionSchema) (args : FlowArgs) : Bool :=
  f.required.all fun k =>
    match dictGet args k, dictGet f.properties k with
    | some v, some p => satisfiesProp v p
    | _, _ => false

/-- Forward rank of each node name in the interview graph. -/
def rank : String → Nat
  | "initial" => 0
  | "salary_collection" => 1
  | "motivation_collection" => 2
  | "rejection" => 2
  | "resolution" => 3
  | _ => 4

/-- The node names each node may transition to. -/
def successors : String → List String
  | "initial" => ["salary_collection"]
  | "salary_collection" => ["motivation_collection", "rejection"]
  | "motivation_collection" => ["resolution"]
  | _ => []

/-- One handler-induced transition: some function of node `a`, invoked on
some arguments and state, successfully returns node `b` as next node. -/
def stepsTo (a b : NodeConfig) : Prop :=
  ∃ f ∈ a.functions, ∃ (args : FlowArgs) (st : FlowState) (o : HandlerOutcome),
    runHandler f.handler args st = .ok o ∧ o.2.2 = some b

/-- A sequence of nodes visited by successive handler invocations. -/
def handlerChain : List NodeConfig → Prop
  | a :: b :: rest => stepsTo a b ∧ handlerChain (b :: rest)
  | _ => True

/-- Truthiness test matching Python `if not key:` on an `os.getenv`
result: true when the variable is absent or empty. -/
def pyFalsy : Option String → Bool
  | none => true
  | some s => decide (s = "")

/-- The Deepgram speech-to-text service object. -/
structure DeepgramSTTService where
  api_key : String
deriving DecidableEq

/-- The Cartesia speech-synthesis service object. -/
structure CartesiaTTSService where
  api_key : String
  voice_id : String
deriving DecidableEq

/-- The OpenRouter language-model service object. -/
structure OpenRouterLLMService where
  api_key : String
  model : String
deriving DecidableEq

/-- The service objects `run_bot` constructs once validation passes. -/
structure BotServices where
  stt : DeepgramSTTService
  tts : CartesiaTTSService
  llm : OpenRouterLLMService
deriving DecidableEq

/-- Startup prefix of `run_bot`: read the three credentials, fail fast with
the source error message at the first falsy one, and only in the success
branch construct the service objects. -/
def run_bot_startup (getenv : String → Option String) : Except String BotServices :=
  let deepgram_key := getenv "DEEPGRAM_API_KEY"
  let cartesia_key := getenv "CARTESIA_API_KEY"
  let openrouter_key := getenv "OPENROUTER_API_KEY"
  if pyFalsy deepgram_key then
    .error "DEEPGRAM_API_KEY environment variable is required"
  else if pyFalsy cartesia_key then
    .error "CARTESIA_API_KEY environment variable is required"
  else if pyFalsy openrouter_key then
    .error "OPENROUTER_API_KEY environment variable is required"
  else
    .ok { stt := { api_key := deepgram_key.getD "" }
          tts := { api_key := cartesia_key.getD ""
                   voice_id := "71a7ad14-091c-4e8e-a314-022ece01c121" }
          llm := { api_key := openrouter_key.getD ""
                   model := "x-ai/grok-4-fast:free" } }

/-- Looking up the key just written returns the written value. -/
theorem dictGet_dictSet_self (st : List (String × Value)) (k : String) (v : Value) :
    dictGet (dictSet st k v) k = some v := by
  induction st with
  | nil => simp [dictGet, dictSet]
  | cons kv rest ih =>
      obtain ⟨k2, v2⟩ := kv
      by_cases h : k2 = k <;> simp [dictGet, dictSet, h, ih]

/-- Writing one key leaves every other key unchanged. -/
theorem dictGet_dictSet_ne (st : List (String × Value)) (k k' : String) (v : Value)
    (h : k' ≠ k) : dictGet (dictSet st k v) k' = dictGet st k' := by
  induction st with
  | nil => simp [dictGet, dictSet, Ne.symm h]
  | cons kv rest ih =>
      obtain ⟨k2, v2⟩ := kv
      by_cases h2 : k2 = k
      · subst h2
        simp [dictGet, dictSet, Ne.symm h]
      · simp [dictGet, dictSet, h2, ih]

/-- Evaluation of `collect_name` when the required argument is present. -/
theorem collect_name_eq (args : FlowArgs) (st : FlowState) (v : Value)
    (h : dictGet args "name" = some v) :
    collect_name args st =
      .ok (some (.NameResult (pyStrip (pyStr v)) "success"),
           dictSet st "name" (.str (pyStrip (pyStr v))), some create_salary_node) := by
  simp [collect_name, h]

/-- Evaluation of `collect_salary` when the required numeric argument is
present: the salary is stored and the branch follows `salary > 50`. -/
theorem collect_salary_eq (args : FlowArgs) (st : FlowState) (q : ℚ)
    (h : dictGet args "salary" = some (.num q)) :
    collect_salary args st =
      .ok (some (.SalaryResult q "success" (decide (q > 50))),
           dictSet st "salary_expectation" (.num q),
           some (if q > 50 then create_rejection_node else create_motivation_node)) := by
  by_cases hq : q > 50 <;> simp [collect_salary, pyFloat, h, hq]

/-- Evaluation of `collect_motivation` when the required argument is present. -/
theorem collect_motivation_eq (args : FlowArgs) (st : FlowState) (v : Value)
    (h : dictGet args "motivation" = some v) :
    collect_motivation args st =
      .ok (some (.MotivationResult (pyStrip (pyStr v)) "success"),
           dictSet st "motivation" (.str (pyStrip (pyStr v))), some create_resolution_node) := by
  simp [collect_motivation, h]

/-- The rejection node and the motivation node are different configs. -/
theorem rejection_ne_motivation : create_rejection_node ≠ create_motivation_node := by
  intro h
  exact absurd (congrArg NodeConfig.name h) (by simp [create_rejection_node, create_motivation_node])

/-- C1: for every validated salary argument `s` (with `1 ≤ s ≤ 200`), the
`collect_salary` handler writes `s` to flow state under key
`"salary_expectation"`, returns a `SalaryResult` with `too_high = (s > 50)`
and status `"success"`, and returns the rejection node as next node exactly
when `s > 50` and the motivation-collection node exactly when `s ≤ 50`. -/
theorem collect_salary_branches (s : ℚ) (st : FlowState)
    (h1 : 1 ≤ s) (h2 : s ≤ 200) :
    ∃ st' nxt,
      collect_salary [("salary", Value.num s)] st =
        .ok (some (.SalaryResult s "success" (decide (s > 50))), st', some nxt)
      ∧ dictGet st' "salary_expectation" = some (Value.num s)
      ∧ (nxt = create_rejection_node ↔ s > 50)
      ∧ (nxt = create_motivation_node ↔ s ≤ 50) := by
  refine ⟨dictSet st "salary_expectation" (.num s),
    if s > 50 then create_rejection_node else create_motivation_node,
    collect_salary_eq _ _ _ (by simp [dictGet]),
    dictGet_dictSet_self _ _ _, ?_, ?_⟩
  · by_cases hs : s > 50
    · simp [hs]
    · simp [hs, Ne.symm rejection_ne_motivation]
  · by_cases hs : s > 50
    · simp [hs, rejection_ne_motivation, not_le.mpr hs]
    · simp [hs, not_lt.mp hs]

/-- Witness for C1 at the concrete validated salary 75 with empty state. -/
theorem collect_salary_branches_witness :
    ∃ st' nxt,
      collect_salary [("salary", Value.num 75)] [] =
        .ok (some (.SalaryResult 75 "success" (decide ((75 : ℚ) > 50))), st', some nxt)
      ∧ dictGet st' "salary_expectation" = some (Value.num 75)
      ∧ (nxt = create_rejection_node ↔ (75 : ℚ) > 50)
      ∧ (nxt = create_motivation_node ↔ (75 : ℚ) ≤ 50) :=
  collect_salary_branches 75 [] (by norm_num) (by norm_num)

/-- C3: the accept-path scenario.  Running the handlers in sequence with
name "Asha Rao", salary 30 and motivation "growth opportunities" produces
the states and transitions the spec describes, the final state holds all
three collected fields, and the resolution node ends the session. -/
theorem accept_path_scenario :
    collect_name [("name", Value.str "Asha Rao")] [] =
      .ok (some (.NameResult "Asha Rao" "success"),
           [("name", Value.str "Asha Rao")], some create_salary_node)
  ∧ collect_salary [("salary", Value.num 30)] [("name", Value.str "Asha Rao")] =
      .ok (some (.SalaryResult 30 "success" false),
           [("name", Value.str "Asha Rao"), ("salary_expectation", Value.num 30)],
           some create_motivation_node)
  ∧ collect_motivation [("motivation", Value.str "growth opportunities")]
        [("name", Value.str "Asha Rao"), ("salary_expectation", Value.num 30)] =
      .ok (some (.MotivationResult "growth opportunities" "success"),
           [("name", Value.str "Asha Rao"), ("salary_expectation", Value.num 30),
            ("motivation", Value.str "growth opportunities")],
           some create_resolution_node)
  ∧ dictGet [("name", Value.str "Asha Rao"), ("salary_expectation", Value.num 30),
        ("motivation", Value.str "growth opportunities")] "name" = some (Value.str "Asha Rao")
  ∧ dictGet [("name", Value.str "Asha Rao"), ("salary_expectation", Value.num 30),
        ("motivation", Value.str "growth opportunities")] "salary_expectation" =
      some (Value.num 30)
  ∧ dictGet [("name", Value.str "Asha Rao"), ("salary_expectation", Value.num 30),
        ("motivation", Value.str "growth opportunities")] "motivation" =
      some (Value.str "growth opportunities")
  ∧ create_resolution_node.post_actions = [{ type := "end_conversation" }] :=
  ⟨rfl, rfl, rfl, rfl, rfl, rfl, rfl⟩

/-- The first element surviving `dropWhile p` does not satisfy `p`. -/
theorem dropWhile_head_false (p : Char → Bool) :
    ∀ (l : List Char) (c : Char) (cs : List Char),
      l.dropWhile p = c :: cs → p c = false := by
  intro l
  induction l with
  | nil => intro c cs h; simp [List.dropWhile] at h
  | cons a as ih =>
      intro c cs h
      by_cases ha : p a = true
      · rw [List.dropWhile_cons, if_pos ha] at h
        exact ih c cs h
      · rw [List.dropWhile_cons, if_neg ha] at h
        obtain ⟨rfl, -⟩ := List.cons.inj h
        simpa using ha

/-- A stripped string never starts with a whitespace character. -/
theorem pyStrip_head_not_space (s : String) (c : Char)
    (h : (pyStrip s).data.head? = some c) : isPySpace c = false := by
  obtain ⟨t, ht⟩ := List.rdropWhile_prefix isPySpace (s.data.dropWhile isPySpace)
  cases hres : (s.data.dropWhile isPySpace).rdropWhile isPySpace with
  | nil => rw [show (pyStrip s).data = (s.data.dropWhile isPySpace).rdropWhile isPySpace from rfl,
        hres] at h; simp at h
  | cons c0 cs =>
      have hc : c0 = c := by
        rw [show (pyStrip s).data = (s.data.dropWhile isPySpace).rdropWhile isPySpace from rfl,
          hres] at h
        simpa using h
      subst hc
      rw [hres] at ht
      exact dropWhile_head_false isPySpace s.data c0 (cs ++ t) ht.symm

/-- A stripped string never ends with a whitespace character. -/
theorem pyStrip_last_not_space (s : String) (c : Char)
    (h : (pyStrip s).data.getLast? = some c) : isPySpace c = false := by
  have hmem : c ∈ ((s.data.dropWhile isPySpace).rdropWhile isPySpace).getLast? := h
  obtain ⟨hne, hc⟩ := List.mem_getLast?_eq_getLast hmem
  have := List.rdropWhile_last_not isPySpace (s.data.dropWhile isPySpace) hne
  rw [← hc] at this
  simpa using this

/-- Every successful `collect_name` invocation transitions to the salary node. -/
theorem collect_name_next (args : FlowArgs) (st : FlowState) (o : HandlerOutcome)
    (h : collect_name args st = .ok o) : o.2.2 = some create_salary_node := by
  cases hv : dictGet args "name" with
  | none => simp [collect_name, hv] at h
  | some v =>
      rw [collect_name_eq args st v hv] at h
      obtain rfl := Except.ok.inj h
      rfl

/-- Every successful `collect_salary` invocation transitions to the
rejection node or to the motivation node. -/
theorem collect_salary_next (args : FlowArgs) (st : FlowState) (o : HandlerOutcome)
    (h : collect_salary args st = .ok o) :
    o.2.2 = some create_rejection_node ∨ o.2.2 = some create_motivation_node := by
  cases hv : dictGet args "salary" with
  | none => simp [collect_salary, hv] at h
  | some v =>
      cases v with
      | str s => simp [collect_salary, pyFloat, hv] at h
      | num q =>
          rw [collect_salary_eq args st q hv] at h
          obtain rfl := Except.ok.inj h
          by_cases hq : q > 50
          · left; simp [hq]
          · right; simp [hq]

/-- Every successful `collect_motivation` invocation transitions to the
resolution node. -/
theorem collect_motivation_next (args : FlowArgs) (st : FlowState) (o : HandlerOutcome)
    (h : collect_motivation args st = .ok o) : o.2.2 = some create_resolution_node := by
  cases hv : dictGet args "motivation" with
  | none => simp [collect_motivation, hv] at h
  | some v =>
      rw [collect_motivation_eq args st v hv] at h
      obtain rfl := Except.ok.inj h
      rfl

/-- C10: `collect_name` and `collect_motivation` store and return the
stripped input: the flow-state value and the result value both equal
`pyStrip input`, which has no leading or trailing whitespace. -/
theorem strip_normalization (input : String) (st : FlowState) :
    collect_name [("name", Value.str input)] st =
      .ok (some (.NameResult (pyStrip input) "success"),
           dictSet st "name" (.str (pyStrip input)), some create_salary_node)
  ∧ collect_motivation [("motivation", Value.str input)] st =
      .ok (some (.MotivationResult (pyStrip input) "success"),
           dictSet st "motivation" (.str (pyStrip input)), some create_resolution_node)
  ∧ dictGet (dictSet st "name" (.str (pyStrip input))) "name" = some (.str (pyStrip input))
  ∧ dictGet (dictSet st "motivation" (.str (pyStrip input))) "motivation" =
      some (.str (pyStrip input))
  ∧ (∀ c, (pyStrip input).data.head? = some c → isPySpace c = false)
  ∧ (∀ c, (pyStrip input).data.getLast? = some c → isPySpace c = false) :=
  ⟨collect_name_eq _ _ (Value.str input) (by simp [dictGet]),
   collect_motivation_eq _ _ (Value.str input) (by simp [dictGet]),
   dictGet_dictSet_self _ _ _,
   dictGet_dictSet_self _ _ _,
   pyStrip_head_not_space input,
   pyStrip_last_not_space input⟩

/-- Witness for C10: evaluated at the concrete input " Asha Rao " the
stored head character is not whitespace. -/
theorem strip_normalization_witness : isPySpace 'A' = false :=
  (strip_normalization " Asha Rao " []).2.2.2.2.1 'A' rfl

/-- C4: the rejection path.  At salary 75 the handler reports
`too_high = true` and transitions to the rejection node; the state update
touches only `"salary_expectation"`, and the sole remaining handler
(`end_interview`, the only function of the rejection node) changes nothing:
a state without a `"motivation"` key never receives one on this branch. -/
theorem rejection_path (st : FlowState) (hm : dictGet st "motivation" = none) :
    ∃ st', collect_salary [("salary", Value.num 75)] st =
        .ok (some (.SalaryResult 75 "success" true), st', some create_rejection_node)
      ∧ dictGet st' "motivation" = none
      ∧ (∀ k, k ≠ "salary_expectation" → dictGet st' k = dictGet st k)
      ∧ (∀ f ∈ create_rejection_node.functions, f.handler = HandlerRef.end_interview)
      ∧ (∀ (args2 : FlowArgs) (st2 : FlowState),
          runHandler HandlerRef.end_interview args2 st2 = .ok (none, st2, none)) := by
  refine ⟨dictSet st "salary_expectation" (.num 75), ?_, ?_, ?_, ?_, fun _ _ => rfl⟩
  · rw [collect_salary_eq [("salary", Value.num 75)] st 75 (by simp [dictGet])]
    norm_num
  · rw [dictGet_dictSet_ne st _ _ _ (by decide)]
    exact hm
  · intro k hk
    exact dictGet_dictSet_ne st _ _ _ hk
  · intro f hf
    simp only [create_rejection_node, List.mem_singleton] at hf
    subst hf
    rfl

/-- Witness for C4 starting from the empty flow state. -/
theorem rejection_path_witness :
    ∃ st', collect_salary [("salary", Value.num 75)] [] =
        .ok (some (.SalaryResult 75 "success" true), st', some create_rejection_node)
      ∧ dictGet st' "motivation" = none
      ∧ (∀ k, k ≠ "salary_expectation" → dictGet st' k = dictGet ([] : FlowState) k)
      ∧ (∀ f ∈ create_rejection_node.functions, f.handler = HandlerRef.end_interview)
      ∧ (∀ (args2 : FlowArgs) (st2 : FlowState),
          runHandler HandlerRef.end_interview args2 st2 = .ok (none, st2, none)) :=
  rejection_path [] rfl

/-- C2 counterexample: the motivation-collection node — the node taken when
the salary is at most 50 — has an empty `post_actions` list, so its
postActions contain no session-termination entry and it is not terminal. -/
theorem motivation_node_not_terminal :
    ¬ ∃ a ∈ create_motivation_node.post_actions, a.type = "end_conversation" := by
  simp [create_motivation_node]

/-- C2 (amended): of the two nodes reachable from `collect_salary`, the
rejection node is terminal with an `end_conversation` post-action, while the
motivation node has no post-actions and transitions onward to the resolution
node, which is the terminal node of the accept path and likewise carries an
`end_conversation` post-action; the handlers of both terminal nodes never
produce a further transition. -/
theorem terminal_nodes_end_session :
    (∃ a ∈ create_rejection_node.post_actions, a.type = "end_conversation")
  ∧ (∃ a ∈ create_resolution_node.post_actions, a.type = "end_conversation")
  ∧ (∀ f ∈ create_rejection_node.functions ++ create_resolution_node.functions,
      ∀ (args : FlowArgs) (st : FlowState) (o : HandlerOutcome),
        runHandler f.handler args st = .ok o → o.2.2 = none)
  ∧ create_motivation_node.post_actions = []
  ∧ (∀ (args : FlowArgs) (st : FlowState) (o : HandlerOutcome),
      collect_motivation args st = .ok o → o.2.2 = some create_resolution_node) := by
  refine ⟨⟨{ type := "end_conversation" }, by simp [create_rejection_node]⟩,
    ⟨{ type := "end_conversation" }, by simp [create_resolution_node]⟩, ?_, rfl,
    collect_motivation_next⟩
  intro f hf args st o h
  simp only [create_rejection_node, create_resolution_node, List.mem_append,
    List.mem_singleton] at hf
  rcases hf with rfl | rfl <;>
    · obtain rfl := Except.ok.inj h
      rfl

/-- Witness for the amended C2: `collect_motivation` on a concrete input
yields the resolution node as next node. -/
theorem terminal_nodes_end_session_witness :
    ((some (FlowResult.MotivationResult "growth opportunities" "success"),
      [("motivation", Value.str "growth opportunities")],
      some create_resolution_node) : HandlerOutcome).2.2 = some create_resolution_node :=
  terminal_nodes_end_session.2.2.2.2
    [("motivation", Value.str "growth opportunities")] [] _ rfl

/-- C8 counterexample: the two terminal nodes do not expose an empty set of
functions — each exposes the `end_interview` schema. -/
theorem terminal_functions_nonempty :
    create_resolution_node.functions ≠ [] ∧ create_rejection_node.functions ≠ [] := by
  constructor <;> simp [create_resolution_node, create_rejection_node]

/-- C8 (amended): the resolution and rejection nodes each expose exactly one
FunctionSchema, named `end_interview`, whose handler writes no state and
yields no transition; the session ends through their post-actions. -/
theorem terminal_nodes_single_function :
    create_resolution_node.functions.map FunctionSchema.name = ["end_interview"]
  ∧ create_rejection_node.functions.map FunctionSchema.name = ["end_interview"]
  ∧ (∀ f ∈ create_resolution_node.functions ++ create_rejection_node.functions,
      f.handler = HandlerRef.end_interview)
  ∧ (∀ (args : FlowArgs) (st : FlowState), end_interview args st = .ok (none, st, none)) := by
  refine ⟨rfl, rfl, ?_, fun _ _ => rfl⟩
  intro f hf
  simp only [create_rejection_node, create_resolution_node, List.mem_append,
    List.mem_singleton] at hf
  rcases hf with rfl | rfl <;> rfl

/-- Witness for the amended C8: the single schema of the resolution node is
dispatched to `end_interview`. -/
theorem terminal_nodes_single_function_witness :
    ({ name := "end_interview", handler := HandlerRef.end_interview,
       description := "Complete the interview process.", properties := [],
       required := [] } : FunctionSchema).handler = HandlerRef.end_interview :=
  terminal_nodes_single_function.2.2.1 _ (by simp [create_resolution_node])

/-- C7: only the initial node supplies role messages — its `role_messages`
list is non-empty while every other node creator returns none — and every
node returned as a transition target by any handler carries no role
messages, so role messages enter the session exactly once, with the start
node at initialization. -/
theorem role_messages_only_initial :
    create_initial_node.role_messages ≠ []
  ∧ create_salary_node.role_messages = []
  ∧ create_motivation_node.role_messages = []
  ∧ create_resolution_node.role_messages = []
  ∧ create_rejection_node.role_messages = []
  ∧ (∀ (h : HandlerRef) (args : FlowArgs) (st : FlowState) (o : HandlerOutcome)
        (b : NodeConfig), runHandler h args st = .ok o → o.2.2 = some b →
          b.role_messages = []) := by
  refine ⟨by simp [create_initial_node], rfl, rfl, rfl, rfl, ?_⟩
  intro h args st o b ho hb
  cases h with
  | collect_name =>
      have := collect_name_next args st o ho
      rw [this] at hb
      obtain rfl := Option.some.inj hb
      rfl
  | collect_salary =>
      rcases collect_salary_next args st o ho with hn | hn <;>
        · rw [hn] at hb
          obtain rfl := Option.some.inj hb
          rfl
  | collect_motivation =>
      have := collect_motivation_next args st o ho
      rw [this] at hb
      obtain rfl := Option.some.inj hb
      rfl
  | end_interview =>
      obtain rfl := Except.ok.inj ho
      simp at hb

/-- Witness for C7: the node reached by `collect_name` on a concrete input
carries no role messages. -/
theorem role_messages_only_initial_witness : create_salary_node.role_messages = [] :=
  role_messages_only_initial.2.2.2.2.2 .collect_name [("name", Value.str "Asha Rao")] []
    (some (.NameResult "Asha Rao" "success"),
      [("name", Value.str "Asha Rao")], some create_salary_node)
    create_salary_node rfl rfl

/-- C5: startup requires exactly the three credentials.  If a key is absent
or empty, `run_bot` raises the source's `ValueError` message naming that
variable and no service object is constructed (the error branch carries
none); if all three are present and non-empty, no such error is raised and
the services are built.  Checks happen in source order. -/
theorem run_bot_key_validation (getenv : String → Option String) :
    (pyFalsy (getenv "DEEPGRAM_API_KEY") = true →
      run_bot_startup getenv = .error "DEEPGRAM_API_KEY environment variable is required")
  ∧ (pyFalsy (getenv "DEEPGRAM_API_KEY") = false →
     pyFalsy (getenv "CARTESIA_API_KEY") = true →
      run_bot_startup getenv = .error "CARTESIA_API_KEY environment variable is required")
  ∧ (pyFalsy (getenv "DEEPGRAM_API_KEY") = false →
     pyFalsy (getenv "CARTESIA_API_KEY") = false →
     pyFalsy (getenv "OPENROUTER_API_KEY") = true →
      run_bot_startup getenv = .error "OPENROUTER_API_KEY environment variable is required")
  ∧ ((∃ s, run_bot_startup getenv = .ok s) ↔
      pyFalsy (getenv "DEEPGRAM_API_KEY") = false
      ∧ pyFalsy (getenv "CARTESIA_API_KEY") = false
      ∧ pyFalsy (getenv "OPENROUTER_API_KEY") = false)
  ∧ (∀ msg, run_bot_startup getenv = .error msg →
      ∃ k ∈ ["DEEPGRAM_API_KEY", "CARTESIA_API_KEY", "OPENROUTER_API_KEY"],
        pyFalsy (getenv k) = true ∧ msg = k ++ " environment variable is required") := by
  refine ⟨?_, ?_, ?_, ?_, ?_⟩
  · intro h
    simp [run_bot_startup, h]
  · intro h1 h2
    simp [run_bot_startup, h1, h2]
  · intro h1 h2 h3
    simp [run_bot_startup, h1, h2, h3]
  · constructor
    · rintro ⟨s, hs⟩
      by_cases h1 : pyFalsy (getenv "DEEPGRAM_API_KEY") <;>
      by_cases h2 : pyFalsy (getenv "CARTESIA_API_KEY") <;>
      by_cases h3 : pyFalsy (getenv "OPENROUTER_API_KEY") <;>
        simp_all [run_bot_startup]
    · rintro ⟨h1, h2, h3⟩
      exact ⟨{ stt := { api_key := (getenv "DEEPGRAM_API_KEY").getD "" },
               tts := { api_key := (getenv "CARTESIA_API_KEY").getD "",
                        voice_id := "71a7ad14-091c-4e8e-a314-022ece01c121" },
               llm := { api_key := (getenv "OPENROUTER_API_KEY").getD "",
                        model := "x-ai/grok-4-fast:free" } },
             by simp [run_bot_startup, h1, h2, h3]⟩
  · intro msg hmsg
    by_cases h1 : pyFalsy (getenv "DEEPGRAM_API_KEY")
    · refine ⟨"DEEPGRAM_API_KEY", by simp, h1, ?_⟩
      simp [run_bot_startup, h1] at hmsg
      rw [← hmsg]
      rfl
    · by_cases h2 : pyFalsy (getenv "CARTESIA_API_KEY")
      · refine ⟨"CARTESIA_API_KEY", by simp, h2, ?_⟩
        simp [run_bot_startup, h1, h2] at hmsg
        rw [← hmsg]
        rfl
      · by_cases h3 : pyFalsy (getenv "OPENROUTER_API_KEY")
        · refine ⟨"OPENROUTER_API_KEY", by simp, h3, ?_⟩
          simp [run_bot_startup, h1, h2, h3] at hmsg
          rw [← hmsg]
          rfl
        · simp [run_bot_startup, h1, h2, h3] at hmsg

/-- Witness for C5: with all three credentials present and non-empty,
startup succeeds. -/
theorem run_bot_key_validation_witness :
    ∃ s, run_bot_startup (fun _ => some "k") = .ok s :=
  (run_bot_key_validation (fun _ => some "k")).2.2.2.1.mpr ⟨rfl, rfl, rfl⟩

/-- C6: every function handler declared in a FunctionSchema of the
program, applied to arguments validated against the schema and to the
session state, returns a `(result, state, nextNode-or-null)` outcome; in
particular `end_interview` returns the pair with no result and a null
transition, leaving the state unchanged. -/
theorem handlers_return_outcome_pairs :
    (∀ n ∈ programNodes, ∀ f ∈ n.functions, ∀ (args : FlowArgs) (st : FlowState),
      f.validates args = true →
        ∃ o : HandlerOutcome, runHandler f.handler args st = .ok o)
  ∧ (∀ (args : FlowArgs) (st : FlowState),
      runHandler HandlerRef.end_interview args st = .ok (none, st, none)) := by
  refine ⟨?_, fun _ _ => rfl⟩
  intro n hn f hf args st hv
  simp only [programNodes, List.mem_cons, List.not_mem_nil, or_false] at hn
  rcases hn with rfl | rfl | rfl | rfl | rfl
  · simp only [create_initial_node, List.mem_singleton] at hf
    subst hf
    cases hval : dictGet args "name" with
    | none => simp [FunctionSchema.validates, dictGet, hval] at hv
    | some v => exact ⟨_, collect_name_eq args st v hval⟩
  · simp only [create_salary_node, List.mem_singleton] at hf
    subst hf
    cases hval : dictGet args "salary" with
    | none => simp [FunctionSchema.validates, dictGet, hval] at hv
    | some v =>
        cases v with
        | str s => simp [FunctionSchema.validates, satisfiesProp, dictGet, hval] at hv
        | num q => exact ⟨_, collect_salary_eq args st q hval⟩
  · simp only [create_motivation_node, List.mem_singleton] at hf
    subst hf
    cases hval : dictGet args "motivation" with
    | none => simp [FunctionSchema.validates, dictGet, hval] at hv
    | some v => exact ⟨_, collect_motivation_eq args st v hval⟩
  · simp only [create_resolution_node, List.mem_singleton] at hf
    subst hf
    exact ⟨_, rfl⟩
  · simp only [create_rejection_node, List.mem_singleton] at hf
    subst hf
    exact ⟨_, rfl⟩

/-- Witness for C6: the initial node's schema on a validated payload. -/
theorem handlers_return_outcome_pairs_witness :
    ∃ o : HandlerOutcome,
      runHandler HandlerRef.collect_name [("name", Value.str "Asha Rao")] [] = .ok o :=
  handlers_return_outcome_pairs.1 create_initial_node (by simp [programNodes])
    { name := "collect_name", handler := .collect_name,
      description := "Save the candidate\x27s full name to state and move to salary discussion.",
      properties := [("name",
        { type := "string", description := "The candidate\x27s full name" })],
      required := ["name"] }
    (by simp [create_initial_node])
    [("name", Value.str "Asha Rao")] [] rfl

/-- Soundness of the transition shape: any handler-transition out of a
program node lands on a program node of strictly larger rank, listed among
the declared successors. -/
theorem stepsTo_sound (a b : NodeConfig) (ha : a ∈ programNodes) (h : stepsTo a b) :
    b ∈ programNodes ∧ b.name ∈ successors a.name ∧ rank a.name < rank b.name := by
  obtain ⟨f, hf, args, st, o, ho, hnext⟩ := h
  simp only [programNodes, List.mem_cons, List.not_mem_nil, or_false] at ha
  rcases ha with rfl | rfl | rfl | rfl | rfl
  · simp only [create_initial_node, List.mem_singleton] at hf
    subst hf
    have hn := collect_name_next args st o ho
    rw [hn] at hnext
    obtain rfl := Option.some.inj hnext
    exact ⟨by simp [programNodes], by decide, by decide⟩
  · simp only [create_salary_node, List.mem_singleton] at hf
    subst hf
    rcases collect_salary_next args st o ho with hn | hn <;>
      · rw [hn] at hnext
        obtain rfl := Option.some.inj hnext
        exact ⟨by simp [programNodes], by decide, by decide⟩
  · simp only [create_motivation_node, List.mem_singleton] at hf
    subst hf
    have hn := collect_motivation_next args st o ho
    rw [hn] at hnext
    obtain rfl := Option.some.inj hnext
    exact ⟨by simp [programNodes], by decide, by decide⟩
  · simp only [create_resolution_node, List.mem_singleton] at hf
    subst hf
    obtain rfl := Except.ok.inj ho
    simp at hnext
  · simp only [create_rejection_node, List.mem_singleton] at hf
    subst hf
    obtain rfl := Except.ok.inj ho
    simp at hnext

/-- Along any handler chain out of a program node, node ranks strictly
increase pairwise. -/
theorem handlerChain_ranks : ∀ (ns : List NodeConfig) (a : NodeConfig),
    a ∈ programNodes → handlerChain (a :: ns) →
    List.Pairwise (fun x y => rank x.name < rank y.name) (a :: ns) := by
  intro ns
  induction ns with
  | nil => intro a _ _; simp
  | cons b rest ih =>
      intro a ha hc
      obtain ⟨hab, hrest⟩ := hc
      obtain ⟨hbmem, -, hrank⟩ := stepsTo_sound a b ha hab
      have hp := ih b hbmem hrest
      refine List.pairwise_cons.mpr ⟨?_, hp⟩
      intro y hy
      rcases List.mem_cons.mp hy with rfl | hy2
      · exact hrank
      · exact lt_trans hrank ((List.pairwise_cons.mp hp).1 y hy2)

/-- C9: the transition relation is one-way and forward-only.  Every
handler-induced transition from a program node goes to a declared
successor of strictly larger rank (initial → salary_collection;
salary_collection → motivation_collection or rejection;
motivation_collection → resolution; resolution and rejection step
nowhere), and along any chain of handler invocations no node name is ever
visited twice. -/
theorem transitions_forward_only :
    (∀ a b, a ∈ programNodes → stepsTo a b →
      b.name ∈ successors a.name ∧ rank a.name < rank b.name)
  ∧ (∀ n, successors "resolution" = [] ∧ successors "rejection" = [] ∧
      (n = "initial" ∨ n = "salary_collection" ∨ n = "motivation_collection" →
        successors n ≠ []))
  ∧ (∀ (a : NodeConfig) (ns : List NodeConfig), a ∈ programNodes →
      handlerChain (a :: ns) → ((a :: ns).map NodeConfig.name).Nodup) := by
  refine ⟨fun a b ha h => (stepsTo_sound a b ha h).2, ?_, ?_⟩
  · intro n
    refine ⟨rfl, rfl, ?_⟩
    rintro (rfl | rfl | rfl) <;> simp [successors]
  · intro a ns ha hc
    have hp := handlerChain_ranks ns a ha hc
    have hne : List.Pairwise (fun x y : NodeConfig => x.name ≠ y.name) (a :: ns) := by
      refine hp.imp ?_
      intro x y hlt heq
      rw [heq] at hlt
      exact lt_irrefl _ hlt
    exact List.pairwise_map.mpr hne

/-- Witness for C9: the concrete transition from the initial node to the
salary node is a declared forward step. -/
theorem transitions_forward_only_witness :
    create_salary_node.name ∈ successors create_initial_node.name
  ∧ rank create_initial_node.name < rank create_salary_node.name :=
  transitions_forward_only.1 create_initial_node create_salary_node (by simp [programNodes])
    ⟨{ name := "collect_name", handler := .collect_name,
       description := "Save the candidate\x27s full name to state and move to salary discussion.",
       properties := [("name",
         { type := "string", description := "The candidate\x27s full name" })],
       required := ["name"] },
     by simp [create_initial_node],
     [("name", Value.str "Asha Rao")], [],
     (some (.NameResult "Asha Rao" "success"), [("name", Value.str "Asha Rao")],
       some create_salary_node), rfl, rfl⟩
